import Mathlib

/-!
Shallow embedding of `src/moonraker/components/filaman.py`: the register
catalog, the value codecs (struct.pack/unpack usage), the smbus-level
transport against a faithful loopback bus that records a trace of
transactions, and the NFC record read/write paths.

Conventions:
* Python `str` values are modelled as `List Char` (a sequence of code
  points); `len`/slicing act on code points, `encode('utf-8')` is
  `utf8Encode`.
* `float` register values are modelled by their IEEE-754 single-precision
  bit patterns (a `Nat`); `struct.pack('<f', x)` lays out the four
  little-endian bytes of that pattern and `struct.unpack('<f', b)`
  reassembles them, so the codec pair is bit-exact.
* Machine integers stay `Int`/`Nat` with explicit `% 2^32` arithmetic.
* A raised Python exception is an `Except.error` carrying the exception
  kind; the bus state (store and trace) at the moment of the raise is
  returned alongside, because writes already issued have reached the bus.
-/

/-- The `BusType` enumeration of the source (BOOL/INT/FLOAT/STR/BYTE). -/
inductive BusType where
  | bool
  | int
  | float
  | str
  | byte
  deriving DecidableEq

/-- The `BusOp` enumeration: the only operation is COMMIT with tag 0. -/
inductive BusOp where
  | COMMIT
  deriving DecidableEq

def BusOp.value : BusOp → Nat
  | .COMMIT => 0

/-- One entry of `BUS_REGISTERS`: register address and value type. -/
structure RegVal where
  reg : Nat
  type : BusType
  deriving DecidableEq

/-- A Python value as it appears in field mappings: ints, float32 values
(by their bit patterns), bools, raw bytes, and strings. -/
inductive Value where
  | int (n : Int)
  | float (bits : Nat)
  | bool (b : Bool)
  | byte (b : Nat)
  | str (s : List Char)
  deriving DecidableEq

/-- Python exception kinds raised by the embedded code paths. -/
inductive Err where
  | keyError        -- dict access on a missing key
  | typeError       -- len()/slicing a non-string value in _write_str
  | structError     -- struct.pack('<i', v) with v out of the int32 range
  | valueError      -- smbus byte data out of the 0..255 range
  | unicodeError    -- bytes.decode('utf-8') on invalid UTF-8
  | attributeError  -- access to the undefined attribute self.system
  deriving DecidableEq

/-- A Python dict of field name → value, as an insertion-ordered
association list. -/
abbrev FieldMap := List (String × Value)

/-- Dict lookup `d[k]` (first binding wins, as keys are unique). -/
def flookup : FieldMap → String → Option Value
  | [], _ => none
  | (k, v) :: rest, key => if key = k then some v else flookup rest key

/-- The `BUS_REGISTERS` table, in the source's insertion order. -/
def BUS_REGISTERS : List (String × RegVal) :=
  [ ("operation",         ⟨0x0F, .byte⟩),
    ("present",           ⟨0x00, .bool⟩),
    ("nfc_valid",         ⟨0x01, .bool⟩),
    ("filament_id",       ⟨0x02, .int⟩),
    ("filament_name_len", ⟨0x03, .int⟩),
    ("filament_name",     ⟨0x04, .str⟩),
    ("spool_weight",      ⟨0x05, .int⟩),
    ("total_weight",      ⟨0x06, .int⟩),
    ("opt_bitmap",        ⟨0x07, .byte⟩),
    ("extr_multiplier",   ⟨0x08, .float⟩),
    ("pressure_advance",  ⟨0x09, .float⟩),
    ("extr_temp",         ⟨0x0A, .int⟩),
    ("bed_temp",          ⟨0x0B, .int⟩),
    ("regular_fan",       ⟨0x0C, .int⟩),
    ("bridge_fan",        ⟨0x0D, .int⟩) ]

/-- `BUS_REGISTERS[name]` for a name known to be in the table. -/
def busReg (name : String) : RegVal :=
  (List.lookup name BUS_REGISTERS).getD ⟨0, .byte⟩

/-- `BUS_REG_OPT_START = BUS_REGISTERS['opt_bitmap']['reg'] + 1`. -/
def BUS_REG_OPT_START : Nat := (busReg "opt_bitmap").reg + 1

/-- Little-endian 4-byte layout of a number below 2^32
(the byte order produced by struct.pack with the `<` prefix). -/
def le4 (m : Nat) : List Nat :=
  [m % 256, m / 256 % 256, m / 65536 % 256, m / 16777216 % 256]

/-- Reassembly of a 4-byte little-endian buffer. -/
def unle4 (l : List Nat) : Nat :=
  l.getD 0 0 + 256 * l.getD 1 0 + 65536 * l.getD 2 0 + 16777216 * l.getD 3 0

/-- `struct.pack('<i', v)`: two's-complement little-endian int32, i.e.
the bytes of v mod 2^32 (the caller checks the range; pack itself raises
on overflow). `%` on `Int` is Euclidean mod, matching two's complement. -/
def pack_i (v : Int) : List Nat := le4 (v % 4294967296).toNat

/-- `struct.unpack('<i', b)`. -/
def unpack_i (l : List Nat) : Int :=
  let m := unle4 l
  if m < 2147483648 then (m : Int) else (m : Int) - 4294967296

/-- `struct.pack('<f', x)`: the four little-endian bytes of the float32
bit pattern. -/
def pack_f (bits : Nat) : List Nat := le4 (bits % 4294967296)

/-- `struct.unpack('<f', b)`: reassembled float32 bit pattern. -/
def unpack_f (l : List Nat) : Nat := unle4 l

/-- UTF-8 bytes of one code point (`str.encode('utf-8')`, per character). -/
def charUtf8 (c : Char) : List Nat :=
  let n := c.toNat
  if n < 0x80 then [n]
  else if n < 0x800 then [0xC0 + n / 64, 0x80 + n % 64]
  else if n < 0x10000 then
    [0xE0 + n / 4096, 0x80 + n / 64 % 64, 0x80 + n % 64]
  else
    [0xF0 + n / 262144, 0x80 + n / 4096 % 64, 0x80 + n / 64 % 64, 0x80 + n % 64]

/-- `value.encode('utf-8')` over the whole string. -/
def utf8Encode : List Char → List Nat
  | [] => []
  | c :: rest => charUtf8 c ++ utf8Encode rest

/-- Whether a byte is a UTF-8 continuation byte (0x80..0xBF). -/
def isCont (b : Nat) : Bool := decide (0x80 ≤ b) && decide (b < 0xC0)

/-- `bytes.decode('utf-8')`: the standard UTF-8 decoder, rejecting stray
or missing continuation bytes, overlong forms, surrogates and values
beyond U+10FFFF, as Python's strict decoder does. -/
def utf8Decode : List Nat → Option (List Char)
  | [] => some []
  | b :: rest =>
    if b < 0x80 then
      match utf8Decode rest with
      | some s => some (Char.ofNat b :: s)
      | none => none
    else if b < 0xC2 then none
    else if b < 0xE0 then
      match rest with
      | b1 :: rest1 =>
        if isCont b1 then
          match utf8Decode rest1 with
          | some s => some (Char.ofNat ((b - 0xC0) * 64 + (b1 - 0x80)) :: s)
          | none => none
        else none
      | [] => none
    else if b < 0xF0 then
      match rest with
      | b1 :: b2 :: rest2 =>
        if isCont b1 && isCont b2 then
          let cp := (b - 0xE0) * 4096 + (b1 - 0x80) * 64 + (b2 - 0x80)
          if cp < 0x800 || (0xD800 ≤ cp && cp < 0xE000) then none
          else
            match utf8Decode rest2 with
            | some s => some (Char.ofNat cp :: s)
            | none => none
        else none
      | _ => none
    else if b < 0xF5 then
      match rest with
      | b1 :: b2 :: b3 :: rest3 =>
        if isCont b1 && isCont b2 && isCont b3 then
          let cp := (b - 0xF0) * 262144 + (b1 - 0x80) * 4096 +
                    (b2 - 0x80) * 64 + (b3 - 0x80)
          if cp < 0x10000 || 0x110000 ≤ cp then none
          else
            match utf8Decode rest3 with
            | some s => some (Char.ofNat cp :: s)
            | none => none
        else none
      | _ => none
    else none

/-- Python truthiness of a value (used by `1 if value else 0` and the
`if filament_info['present'] and ...` test). For floats both +0.0 and
-0.0 are falsy. -/
def truthy : Value → Bool
  | .int n => n != 0
  | .float bits => bits != 0 && bits != 0x80000000
  | .bool b => b
  | .byte b => b != 0
  | .str s => !s.isEmpty

/-- One bus transaction, as recorded in the trace. -/
inductive BusEv where
  | readBlock (reg : Nat) (count : Int) (bytes : List Nat)
  | readByte (reg : Nat) (b : Nat)
  | writeBlock (reg : Nat) (bytes : List Nat)
  | writeByte (reg : Nat) (b : Nat)
  deriving DecidableEq

/-- The register address a transaction touches. -/
def evAddr : BusEv → Nat
  | .readBlock r _ _ => r
  | .readByte r _ => r
  | .writeBlock r _ => r
  | .writeByte r _ => r

/-- The faithful loopback bus: per-register stored byte blocks plus the
trace of all transactions issued so far. -/
structure BusState where
  store : Nat → List Nat
  trace : List BusEv

/-- An idle bus with nothing stored. -/
def initBus : BusState := ⟨fun _ => [], []⟩

/-- The device returns exactly `n` bytes on a block read: the stored
bytes, zero-padded past what was stored. -/
def takePad (l : List Nat) (n : Nat) : List Nat :=
  l.take n ++ List.replicate (n - l.length) 0

def updStore (s : Nat → List Nat) (r : Nat) (bytes : List Nat) : Nat → List Nat :=
  fun x => if x = r then bytes else s x

/-- `bus.read_i2c_block_data(dev, reg, count)` on the loopback. -/
def read_i2c_block_data (st : BusState) (reg : Nat) (count : Int) :
    List Nat × BusState :=
  let bytes := takePad (st.store reg) count.toNat
  (bytes, ⟨st.store, st.trace ++ [.readBlock reg count bytes]⟩)

/-- `bus.read_byte_data(dev, reg)` on the loopback. -/
def read_byte_data (st : BusState) (reg : Nat) : Nat × BusState :=
  let b := (st.store reg).headD 0
  (b, ⟨st.store, st.trace ++ [.readByte reg b]⟩)

/-- `bus.write_i2c_block_data(dev, reg, bytes)` on the loopback. -/
def write_i2c_block_data (st : BusState) (reg : Nat) (bytes : List Nat) :
    BusState :=
  ⟨updStore st.store reg bytes, st.trace ++ [.writeBlock reg bytes]⟩

/-- `bus.write_byte_data(dev, reg, b)`: smbus validates 0 ≤ b ≤ 255. -/
def write_byte_data (st : BusState) (reg : Nat) (b : Nat) :
    Except Err Unit × BusState :=
  if b < 256 then
    (.ok (), ⟨updStore st.store reg [b], st.trace ++ [.writeByte reg b]⟩)
  else (.error .valueError, st)

/-- `_read_float`. -/
def read_float (reg : Nat) (st : BusState) : Nat × BusState :=
  let (buf, st) := read_i2c_block_data st reg 4
  (unpack_f buf, st)

/-- `_write_float` (pack never fails; any bit pattern encodes). -/
def write_float (reg : Nat) (bits : Nat) (st : BusState) :
    Except Err Unit × BusState :=
  (.ok (), write_i2c_block_data st reg (pack_f bits))

/-- `_read_int`. -/
def read_int (reg : Nat) (st : BusState) : Int × BusState :=
  let (buf, st) := read_i2c_block_data st reg 4
  (unpack_i buf, st)

/-- `_write_int`: struct.pack('<i', v) raises struct.error outside the
int32 range. -/
def write_int (reg : Nat) (v : Int) (st : BusState) :
    Except Err Unit × BusState :=
  if -2147483648 ≤ v ∧ v < 2147483648 then
    (.ok (), write_i2c_block_data st reg (pack_i v))
  else (.error .structError, st)

/-- `_read_bool`: `val != 0`. -/
def read_bool (reg : Nat) (st : BusState) : Bool × BusState :=
  let (b, st) := read_byte_data st reg
  (b != 0, st)

/-- `_write_bool`: `1 if value else 0`. -/
def write_bool (reg : Nat) (value : Value) (st : BusState) :
    Except Err Unit × BusState :=
  write_byte_data st reg (if truthy value then 1 else 0)

/-- `_read_byte`. -/
def read_byte (reg : Nat) (st : BusState) : Nat × BusState :=
  read_byte_data st reg

/-- `_write_byte`. -/
def write_byte (reg : Nat) (b : Nat) (st : BusState) :
    Except Err Unit × BusState :=
  write_byte_data st reg b

/-- `_read_str`: reads `min(32, length)` bytes and decodes them as UTF-8. -/
def read_str (reg : Nat) (length : Int) (st : BusState) :
    Except Err (List Char) × BusState :=
  let (buf, st) := read_i2c_block_data st reg (min 32 length)
  match utf8Decode buf with
  | some s => (.ok s, st)
  | none => (.error .unicodeError, st)

/-- `value[:32] if len(value) >= 32 else value`: a slice of a Python str
acts on code points, not bytes. -/
def py_slice32 (value : List Char) : List Char :=
  if value.length ≥ 32 then value.take 32 else value

/-- Exception propagation: run the continuation on success, return the
raised error (with the bus state at the raise) otherwise. This is how
each statement of the Python source hands control to the next. -/
def chain {α β : Type} (r : Except Err α × BusState)
    (f : α → BusState → Except Err β × BusState) : Except Err β × BusState :=
  match r with
  | (.ok a, st) => f a st
  | (.error e, st) => (.error e, st)

/-- Dict access `d[k]` as a statement: raises KeyError when absent. -/
def onKey (o : Option Value) (st : BusState)
    (f : Value → Except Err Unit × BusState) : Except Err Unit × BusState :=
  match o with
  | none => (.error .keyError, st)
  | some v => f v

/-- `_write_str` demands a str value: `len()`/slicing anything else
raises TypeError before any bus traffic. -/
def asStr (v : Value) (st : BusState)
    (f : List Char → Except Err Unit × BusState) : Except Err Unit × BusState :=
  match v with
  | .str s => f s
  | _ => (.error .typeError, st)

/-- `_write_str`: truncates to 32 code points (`py_slice32`), writes the
code-point count to the length register as int32, then the UTF-8 bytes
to `reg`. -/
def write_str (reg : Nat) (value : List Char) (length_register : Nat)
    (st : BusState) : Except Err Unit × BusState :=
  chain (write_int length_register ((py_slice32 value).length : Int) st)
    (fun _ st => (.ok (), write_i2c_block_data st reg (utf8Encode (py_slice32 value))))

/-- `_read_register`: dispatch on the register's value type. In the STR
branch the source evaluates `self.system.error(...)`, but the object has
no attribute `system` (the server handle is `self.server`), so Python
raises AttributeError before any bus transaction. -/
def read_register (rv : RegVal) (st : BusState) : Except Err Value × BusState :=
  match rv.type with
  | .int => let (v, st) := read_int rv.reg st; (.ok (.int v), st)
  | .float => let (v, st) := read_float rv.reg st; (.ok (.float v), st)
  | .bool => let (v, st) := read_bool rv.reg st; (.ok (.bool v), st)
  | .byte => let (v, st) := read_byte rv.reg st; (.ok (.byte v), st)
  | .str => (.error .attributeError, st)

/-- `_write_register`: dispatch on the register's value type; the STR
branch raises AttributeError exactly as in `read_register`. A value of
the wrong shape for a numeric register makes struct.pack (or the smbus
byte validation) raise. -/
def write_register (rv : RegVal) (v : Value) (st : BusState) :
    Except Err Unit × BusState :=
  match rv.type with
  | .int =>
    match v with
    | .int n => write_int rv.reg n st
    | _ => (.error .structError, st)
  | .float =>
    match v with
    | .float bits => write_float rv.reg bits st
    | _ => (.error .structError, st)
  | .bool => write_bool rv.reg v st
  | .byte =>
    match v with
    | .byte b => write_byte rv.reg b st
    | _ => (.error .typeError, st)
  | .str => (.error .attributeError, st)

/-- `_write_operation`: the operation tag as a byte to the operation
register. -/
def write_operation (op : BusOp) (st : BusState) : Except Err Unit × BusState :=
  write_byte (busReg "operation").reg op.value st

/-- `_get_bit`: `(value >> n & 0x01) != 0x00`. -/
def get_bit (value : Nat) (n : Nat) : Bool := (value >>> n) &&& 1 != 0

/-- `_set_bit`: `value | (1 << n)`. -/
def set_bit (value : Nat) (n : Nat) : Nat := value ||| (1 <<< n)

/-- `_get_bitmap_val`. -/
def get_bitmap_val (value : Nat) (identifier : Nat) : Bool :=
  get_bit value (identifier - BUS_REG_OPT_START)

/-- The optional-field loop of `_read_nfc` (lines 127–131): every catalog
entry with address ≥ BUS_REG_OPT_START whose bitmap bit is set is read
and inserted under its symbolic name, in catalog order. -/
def read_nfc_loop (opt_bitmap : Nat) :
    List (String × RegVal) → FieldMap → BusState → Except Err FieldMap × BusState
  | [], data, st => (.ok data, st)
  | (key, val) :: rest, data, st =>
    if val.reg < BUS_REG_OPT_START then read_nfc_loop opt_bitmap rest data st
    else if get_bitmap_val opt_bitmap val.reg then
      match read_register val st with
      | (.ok v, st) => read_nfc_loop opt_bitmap rest (data ++ [(key, v)]) st
      | (.error e, st) => (.error e, st)
    else read_nfc_loop opt_bitmap rest data st

/-- `_read_nfc`. The source reads each mandatory field through
`_read_register`, whose dispatch at these concrete registers resolves to
`_read_int` (name_len, id, spool, total), `_read_str` (name) and
`_read_byte` (opt_bitmap); the loop keeps the dynamic dispatch. -/
def read_nfc (st : BusState) : Except Err FieldMap × BusState :=
  let (name_len, st) := read_int (busReg "filament_name_len").reg st
  let (idv, st) := read_int (busReg "filament_id").reg st
  match read_str (busReg "filament_name").reg name_len st with
  | (.error e, st) => (.error e, st)
  | (.ok name, st) =>
    let (spool, st) := read_int (busReg "spool_weight").reg st
    let (total, st) := read_int (busReg "total_weight").reg st
    let (opt_bitmap, st) := read_byte (busReg "opt_bitmap").reg st
    read_nfc_loop opt_bitmap BUS_REGISTERS
      [("id", .int idv), ("name", .str name),
       ("spool_weight", .int spool), ("total_weight", .int total)] st

/-- The optional-field loop of `_write_nfc` (lines 143–148): for every
catalog entry with address ≥ BUS_REG_OPT_START whose key is in the data,
set its bit and write its value, in catalog order. -/
def write_nfc_loop (data : FieldMap) :
    List (String × RegVal) → Nat → BusState → Except Err Nat × BusState
  | [], opt_bitmap, st => (.ok opt_bitmap, st)
  | (key, val) :: rest, opt_bitmap, st =>
    if val.reg < BUS_REG_OPT_START then write_nfc_loop data rest opt_bitmap st
    else
      match flookup data key with
      | none => write_nfc_loop data rest opt_bitmap st
      | some v =>
        match write_register val v st with
        | (.ok _, st) =>
          write_nfc_loop data rest (set_bit opt_bitmap (val.reg - BUS_REG_OPT_START)) st
        | (.error e, st) => (.error e, st)

/-- The tail of `_write_nfc` (lines 142–150): run the optional loop with
an empty bitmap, write the accumulated bitmap, then commit. -/
def write_nfc_tail (data : FieldMap) (st : BusState) : Except Err Unit × BusState :=
  chain (write_nfc_loop data BUS_REGISTERS 0 st) (fun opt_bitmap st =>
  chain (write_register (busReg "opt_bitmap") (.byte opt_bitmap) st) (fun _ st =>
  write_operation .COMMIT st))

/-- `_write_nfc` (lines 134–150). Mandatory fields are written in source
order — id, name string (which writes the length register first), spool
weight, total weight — each preceded by the dict access that raises
KeyError when the key is absent; then the optional loop, bitmap and
commit (`write_nfc_tail`). Statements are sequenced with `chain`
(exception propagation) and `onKey` (dict access). -/
def write_nfc (data : FieldMap) (st : BusState) : Except Err Unit × BusState :=
  onKey (flookup data "id") st (fun vid =>
  chain (write_register (busReg "filament_id") vid st) (fun _ st =>
  onKey (flookup data "name") st (fun vname =>
  asStr vname st (fun s =>
  chain (write_str (busReg "filament_name").reg s
      (busReg "filament_name_len").reg st) (fun _ st =>
  onKey (flookup data "spool_weight") st (fun vsp =>
  chain (write_register (busReg "spool_weight") vsp st) (fun _ st =>
  onKey (flookup data "total_weight") st (fun vt =>
  chain (write_register (busReg "total_weight") vt st) (fun _ st =>
  write_nfc_tail data st)))))))))

/-- Dict assignment `d[k] = v`: update in place or append. -/
def dictSet (d : FieldMap) (k : String) (v : Value) : FieldMap :=
  if (flookup d k).isSome then
    d.map (fun p => if p.1 = k then (p.1, v) else p)
  else d ++ [(k, v)]

/-- `_read_status`: reads the present and nfc_valid registers (bool
dispatch of `_read_register` at these registers) into the cached status. -/
def read_status (status : FieldMap) (st : BusState) : FieldMap × BusState :=
  let (p, st) := read_bool (busReg "present").reg st
  let (v, st) := read_bool (busReg "nfc_valid").reg st
  (dictSet (dictSet status "present" (.bool p)) "nfc_valid" (.bool v), st)

/-- Python `dict(a, **b)`: a copy of `a` updated with `b` (existing keys
updated in place, new keys appended in order). -/
def merge_dicts (a b : FieldMap) : FieldMap :=
  a.map (fun p => (p.1, (flookup b p.1).getD p.2)) ++
    b.filter (fun p => (flookup a p.1).isNone)

/-- `_notify_filament_changed` (lines 93–97): takes the CACHED
`self.status` dict as it is — no bus read of the status registers — and,
when both cached flags are truthy, merges in a fresh `_read_nfc`; the
returned field map is the payload passed to `server.send_event`. Dict
access on the cached status raises KeyError when the key was never
polled. -/
def notify_filament_changed (status : FieldMap) (st : BusState) :
    Except Err FieldMap × BusState :=
  match flookup status "present" with
  | none => (.error .keyError, st)
  | some p =>
    if truthy p then
      match flookup status "nfc_valid" with
      | none => (.error .keyError, st)
      | some q =>
        if truthy q then
          match read_nfc st with
          | (.ok record, st) => (.ok (merge_dicts status record), st)
          | (.error e, st) => (.error e, st)
        else (.ok status, st)
    else (.ok status, st)

/-- Whether the generic write path accepts the value for the register's
type without raising: int32 range for INT, any bit pattern for FLOAT,
any value for BOOL (truthiness), a byte in range for BYTE, and never for
STR (the generic path raises). -/
def encodable (rv : RegVal) (v : Value) : Bool :=
  match rv.type, v with
  | .int, .int n => decide (-2147483648 ≤ n) && decide (n < 2147483648)
  | .float, .float _ => true
  | .bool, _ => true
  | .byte, .byte b => decide (b < 256)
  | _, _ => false

/-- The register addresses the optional write loop emits, in catalog
order: one per catalog entry at or above the bitmap start whose key is
present in the data. -/
def loop_addrs (data : FieldMap) : List (String × RegVal) → List Nat
  | [] => []
  | (key, val) :: rest =>
    if val.reg < BUS_REG_OPT_START then loop_addrs data rest
    else if (flookup data key).isSome then val.reg :: loop_addrs data rest
    else loop_addrs data rest

/-- The bitmap the optional write loop accumulates. -/
def loop_bm (data : FieldMap) : List (String × RegVal) → Nat → Nat
  | [], bm => bm
  | (key, val) :: rest, bm =>
    if val.reg < BUS_REG_OPT_START then loop_bm data rest bm
    else
      match flookup data key with
      | none => loop_bm data rest bm
      | some _ => loop_bm data rest (set_bit bm (val.reg - BUS_REG_OPT_START))

/-- Modelled from the spec (§6 "Optional bitmap covers addresses
0x08–0x0D → bits 0–5"): the optional register set is the catalog
restricted to addresses 0x08 through 0x0D, in catalog order. -/
def specOptionalRegisters : List (String × RegVal) :=
  BUS_REGISTERS.filter (fun p => decide (0x08 ≤ p.2.reg) && decide (p.2.reg ≤ 0x0D))

/-- Modelled from the spec: the addresses of the optional fields present
in a mapping, in catalog order. -/
def specOptAddrs (data : FieldMap) : List Nat :=
  (specOptionalRegisters.filter (fun p => (flookup data p.1).isSome)).map
    (fun p => p.2.reg)

/-- Decidable check that every optional-range value present in the
mapping is acceptable to the generic write path. -/
def optValsOk (data : FieldMap) : Bool :=
  BUS_REGISTERS.all (fun p =>
    if BUS_REG_OPT_START ≤ p.2.reg then
      match flookup data p.1 with
      | none => true
      | some v => encodable p.2 v
    else true)

/-- Decidable equality for `Except`, so concrete runs can be settled by
`decide`. -/
instance {ε α : Type} [DecidableEq ε] [DecidableEq α] : DecidableEq (Except ε α) :=
  fun x y =>
    match x, y with
    | .ok a, .ok b =>
      match decEq a b with
      | isTrue h => isTrue (h ▸ rfl)
      | isFalse h => isFalse (fun hh => h (Except.ok.inj hh))
    | .error a, .error b =>
      match decEq a b with
      | isTrue h => isTrue (h ▸ rfl)
      | isFalse h => isFalse (fun hh => h (Except.error.inj hh))
    | .ok _, .error _ => isFalse (fun hh => Except.noConfusion hh)
    | .error _, .ok _ => isFalse (fun hh => Except.noConfusion hh)

/-! ### Concrete inputs used by the claims -/

/-- A valid record (name of 2 code points, 4 UTF-8 bytes ≤ 32) whose
round trip the code breaks. -/
def c1_data : FieldMap :=
  [("id", .int 1), ("name", .str ['é', 'é']),
   ("spool_weight", .int 2), ("total_weight", .int 3)]

/-- A name of 20 two-byte code points: 40 UTF-8 bytes. -/
def c2_name : List Char := List.replicate 20 'é'

/-- A device image whose opt_bitmap byte has only bit 7 set. -/
def c4_store : Nat → List Nat := fun r => if r = 0x07 then [0x80] else []

/-- A mapping whose extra key is the operation register's name. -/
def c4_wdata : FieldMap :=
  [("id", .int 0), ("name", .str []), ("spool_weight", .int 0),
   ("total_weight", .int 0), ("operation", .byte 5)]

/-- The write_record scenario input of the spec; 0.045 as an IEEE-754
single is the bit pattern 0x3D3851EC. -/
def c5_data : FieldMap :=
  [("id", .int 7), ("name", .str ['P', 'L', 'A']), ("spool_weight", .int 200),
   ("total_weight", .int 950), ("pressure_advance", .float 0x3D3851EC)]

/-! ### Claim theorems: concrete evaluations -/

/-- Claim C1: FAILS on the code. Writing the valid record
{id: 1, name: "éé", spool_weight: 2, total_weight: 3} over a faithful
loopback and reading it back yields name "é": the writer stores the
code-point count (2) in filament_name_len while the reader consumes it
as a byte count, reading only 2 of the 4 UTF-8 bytes. The mandatory
`name` field of the result does not equal the input value. -/
theorem c1_roundtrip_breaks :
    (write_nfc c1_data initBus).1 = .ok () ∧
    (read_nfc (write_nfc c1_data initBus).2).1 =
      .ok [("id", .int 1), ("name", .str ['é']),
           ("spool_weight", .int 2), ("total_weight", .int 3)] ∧
    flookup c1_data "name" ≠ some (.str ['é']) := by
  refine ⟨rfl, by decide, by decide⟩

/-- Claim C2: FAILS on the code. For a 20-character name of 40 UTF-8
bytes, `_write_str` performs no truncation (20 < 32 code points), writes
20 — the code-point count, not the truncated byte length — to the length
register, and transmits all 40 bytes, exceeding the claimed 32-byte cap. -/
theorem c2_truncation_miscounts :
    (write_str 0x04 c2_name 0x03 initBus).2.trace =
      [.writeBlock 0x03 (pack_i 20), .writeBlock 0x04 (utf8Encode c2_name)] ∧
    (utf8Encode c2_name).length = 40 ∧ ¬ (utf8Encode c2_name).length ≤ 32 ∧
    pack_i 20 ≠ pack_i 32 := by
  refine ⟨by decide, by decide, by decide, by decide⟩

/-- Claim C4: FAILS on the code. The loops bound the "optional" set only
from below (address ≥ 0x08), so the operation register at 0x0F takes
part as bitmap bit 7: a device bitmap byte 0x80 makes `_read_nfc` read
the operation register and return an "operation" field, and an
"operation" key in the input makes `_write_nfc` set bit 7 and write the
operation register mid-transaction. -/
theorem c4_operation_register_participates :
    (read_nfc ⟨c4_store, []⟩).1 =
      .ok [("id", .int 0), ("name", .str []), ("spool_weight", .int 0),
           ("total_weight", .int 0), ("operation", .byte 0)] ∧
    BusEv.readByte 0x0F 0 ∈ (read_nfc ⟨c4_store, []⟩).2.trace ∧
    (write_nfc c4_wdata initBus).1 = .ok () ∧
    BusEv.writeByte 0x0F 5 ∈ (write_nfc c4_wdata initBus).2.trace ∧
    BusEv.writeByte 0x07 0x80 ∈ (write_nfc c4_wdata initBus).2.trace := by
  refine ⟨by decide, by decide, rfl, by decide, by decide⟩

/-- Claim C5 counterexample: the scenario transaction consists of SEVEN
register writes before the single Commit write, not six — the string
write issues two bus writes (length register, then name bytes). -/
theorem c5_seven_writes_not_six :
    (write_nfc c5_data initBus).2.trace.dropLast.length = 7 ∧
    (write_nfc c5_data initBus).2.trace.getLast? = some (.writeByte 0x0F 0) ∧
    ¬ (write_nfc c5_data initBus).2.trace.dropLast.length = 6 := by
  refine ⟨by decide, by decide, by decide⟩

/-- Claim C5 (amended): the scenario writes a bitmap byte with exactly
bit 1 set (pressure_advance, address 0x09 → index 1) to opt_bitmap, and
the transaction is exactly seven register writes — six field writes, the
string one contributing separate length and data writes — followed by
exactly one Commit write. -/
theorem c5_trace_exact :
    (write_nfc c5_data initBus).2.trace =
      [.writeBlock 0x02 [7, 0, 0, 0], .writeBlock 0x03 [3, 0, 0, 0],
       .writeBlock 0x04 [80, 76, 65], .writeBlock 0x05 [200, 0, 0, 0],
       .writeBlock 0x06 [182, 3, 0, 0], .writeBlock 0x09 [236, 81, 56, 61],
       .writeByte 0x07 2, .writeByte 0x0F 0] ∧
    (write_nfc c5_data initBus).1 = .ok () := by
  refine ⟨by decide, rfl⟩

/-- Claim C7: FAILS on the code. `_notify_filament_changed` consults the
cached `self.status` dict and never issues a bus read of the present
(0x00) or nfc_valid (0x01) registers: with a stale cache claiming both
flags true it reads the record and notifies without refreshing the
status, and with the startup cache (empty dict, no poll yet) it raises
KeyError. -/
theorem c7_no_fresh_status_read :
    (notify_filament_changed [("present", .bool true), ("nfc_valid", .bool true)]
        initBus).1 =
      .ok [("present", .bool true), ("nfc_valid", .bool true), ("id", .int 0),
           ("name", .str []), ("spool_weight", .int 0), ("total_weight", .int 0)] ∧
    (∀ e ∈ (notify_filament_changed
        [("present", .bool true), ("nfc_valid", .bool true)] initBus).2.trace,
      evAddr e ≠ 0x00 ∧ evAddr e ≠ 0x01) ∧
    notify_filament_changed [] initBus = (.error .keyError, initBus) := by
  refine ⟨by decide, by decide, rfl⟩

/-- Claim C8: FAILS on the code. On the STR-typed filament_name register
the generic paths do fail before any bus transaction, but with
AttributeError — the raise statement evaluates the undefined attribute
`self.system` (the server handle is `self.server`) — not with the typed
UnsupportedFieldType error built by `server.error`. -/
theorem c8_attribute_error_not_typed :
    read_register (busReg "filament_name") initBus =
      (.error .attributeError, initBus) ∧
    write_register (busReg "filament_name") (.str ['a']) initBus =
      (.error .attributeError, initBus) ∧
    (read_register (busReg "filament_name") initBus).2.trace = [] ∧
    (write_register (busReg "filament_name") (.str ['a']) initBus).2.trace = [] := by
  refine ⟨rfl, rfl, rfl, rfl⟩

/-! ### Codec round trips (C6) -/

/-- Reassembly of an explicit 4-byte buffer. -/
theorem unle4_explicit (a b c d : Nat) :
    unle4 [a, b, c, d] = a + 256 * b + 65536 * c + 16777216 * d := rfl

/-- Base-256 digit reconstruction below 2^32. -/
theorem digits4 (m : Nat) (h : m < 4294967296) :
    m % 256 + 256 * (m / 256 % 256) + 65536 * (m / 65536 % 256) +
      16777216 * (m / 16777216 % 256) = m := by
  omega

/-- A full 4-byte block is returned unchanged by the loopback read. -/
theorem takePad_le4 (m : Nat) : takePad (le4 m) 4 = le4 m := rfl

/-- Claim C6: decode ∘ encode is the identity for every representable
value of each numeric register type, through the write/read primitives
over the faithful loopback bus: bool as a 0/1 byte, byte raw, int32 as
4-byte little-endian two's complement, float32 as the 4 little-endian
bytes of its IEEE-754 bit pattern. -/
theorem c6_codec_roundtrips :
    (∀ (reg : Nat) (st : BusState) (b : Bool),
      (read_bool reg (write_bool reg (.bool b) st).2).1 = b) ∧
    (∀ (reg : Nat) (st : BusState) (b : Nat), b < 256 →
      (read_byte reg (write_byte reg b st).2).1 = b) ∧
    (∀ (reg : Nat) (st : BusState) (v : Int), -2147483648 ≤ v →
      v < 2147483648 → (read_int reg (write_int reg v st).2).1 = v) ∧
    (∀ (reg : Nat) (st : BusState) (bits : Nat), bits < 4294967296 →
      (read_float reg (write_float reg bits st).2).1 = bits) := by
  refine ⟨?_, ?_, ?_, ?_⟩
  · intro reg st b
    cases b <;>
      simp [read_bool, write_bool, write_byte_data, read_byte_data, truthy, updStore]
  · intro reg st b hb
    simp only [write_byte, write_byte_data, if_pos hb]
    simp [read_byte, read_byte_data, updStore]
  · intro reg st v h1 h2
    simp only [write_int, if_pos (And.intro h1 h2)]
    simp only [read_int, read_i2c_block_data, write_i2c_block_data, updStore,
      if_pos, ite_true, eq_self_iff_true]
    rw [show Int.toNat 4 = 4 from rfl, pack_i, takePad_le4]
    simp only [unpack_i, le4, unle4_explicit]
    rw [digits4 (v % 4294967296).toNat (by omega)]
    split <;> omega
  · intro reg st bits h
    simp only [write_float, write_i2c_block_data, read_float,
      read_i2c_block_data, updStore, if_pos, ite_true, eq_self_iff_true]
    rw [show Int.toNat 4 = 4 from rfl, pack_f, takePad_le4]
    simp only [unpack_f, le4, unle4_explicit]
    rw [digits4 (bits % 4294967296) (by omega)]
    omega

/-- Witness for C6 at concrete inputs: true round-trips to true, byte
200, int −5, and the float bit pattern of 0.045f all survive the
encode/decode cycle. -/
theorem c6_codec_roundtrips_witness :
    (read_bool 0 (write_bool 0 (.bool true) initBus).2).1 = true ∧
    (200 : Nat) < 256 ∧ (read_byte 1 (write_byte 1 200 initBus).2).1 = 200 ∧
    (-2147483648 : Int) ≤ -5 ∧ (-5 : Int) < 2147483648 ∧
    (read_int 2 (write_int 2 (-5) initBus).2).1 = -5 ∧
    (0x3D3851EC : Nat) < 4294967296 ∧
    (read_float 3 (write_float 3 0x3D3851EC initBus).2).1 = 0x3D3851EC :=
  ⟨c6_codec_roundtrips.1 0 initBus true, by decide,
   c6_codec_roundtrips.2.1 1 initBus 200 (by decide), by decide, by decide,
   c6_codec_roundtrips.2.2.1 2 initBus (-5) (by decide) (by decide), by decide,
   c6_codec_roundtrips.2.2.2 3 initBus 0x3D3851EC (by decide)⟩

/-! ### String read clamping (C9) -/

/-- A loopback block read always returns exactly the requested count. -/
theorem takePad_length (l : List Nat) (n : Nat) : (takePad l n).length = n := by
  simp [takePad]
  omega

/-- Claim C9: for every requested length, `_read_str` issues exactly one
bus read of `min(32, length)` bytes — lengths above the 32-byte cap are
clamped before the transaction — and its result is the UTF-8 decode of
the returned bytes. -/
theorem c9_read_str_clamps (reg : Nat) (len : Int) (st : BusState) :
    ∃ bytes : List Nat,
      (read_str reg len st).2.trace =
        st.trace ++ [.readBlock reg (min 32 len) bytes] ∧
      bytes.length = (min 32 len).toNat ∧ bytes.length ≤ 32 ∧
      (read_str reg len st).1 =
        (match utf8Decode bytes with
         | some s => Except.ok s
         | none => Except.error Err.unicodeError) := by
  refine ⟨takePad (st.store reg) (min 32 len).toNat, ?_, ?_, ?_, ?_⟩
  · cases h : utf8Decode (takePad (st.store reg) (min 32 len).toNat) <;>
      simp [read_str, read_i2c_block_data, h]
  · exact takePad_length _ _
  · rw [takePad_length]
    omega
  · cases h : utf8Decode (takePad (st.store reg) (min 32 len).toNat) <;>
      simp [read_str, read_i2c_block_data, h]

/-! ### Helper layer for the symbolic write-path theorems (C3, C10) -/

theorem busReg_filament_id : busReg "filament_id" = ⟨0x02, .int⟩ := rfl

theorem busReg_filament_name_len : busReg "filament_name_len" = ⟨0x03, .int⟩ := rfl

theorem busReg_filament_name : busReg "filament_name" = ⟨0x04, .str⟩ := rfl

theorem busReg_spool_weight : busReg "spool_weight" = ⟨0x05, .int⟩ := rfl

theorem busReg_total_weight : busReg "total_weight" = ⟨0x06, .int⟩ := rfl

theorem busReg_opt_bitmap : busReg "opt_bitmap" = ⟨0x07, .byte⟩ := rfl

theorem busReg_operation : busReg "operation" = ⟨0x0F, .byte⟩ := rfl


/-- A successful generic register write is a single bus write transaction
touching exactly the register's address. -/
theorem write_register_good (rv : RegVal) (v : Value)
    (h : encodable rv v = true) (st : BusState) :
    ∃ e : BusEv, evAddr e = rv.reg ∧
      ∃ store2, write_register rv v st = (.ok (), ⟨store2, st.trace ++ [e]⟩) := by
  obtain ⟨r, t⟩ := rv
  cases t <;> cases v <;> simp [encodable] at h
  -- five BOOL cases (any value is written via its truthiness)
  case' mk.bool.int n =>
    refine ⟨.writeByte r (if truthy (.int n) then 1 else 0), rfl,
      updStore st.store r [if truthy (.int n) then 1 else 0], ?_⟩
  case' mk.bool.float bits =>
    refine ⟨.writeByte r (if truthy (.float bits) then 1 else 0), rfl,
      updStore st.store r [if truthy (.float bits) then 1 else 0], ?_⟩
  case' mk.bool.bool b =>
    refine ⟨.writeByte r (if truthy (.bool b) then 1 else 0), rfl,
      updStore st.store r [if truthy (.bool b) then 1 else 0], ?_⟩
  case' mk.bool.byte b =>
    refine ⟨.writeByte r (if truthy (.byte b) then 1 else 0), rfl,
      updStore st.store r [if truthy (.byte b) then 1 else 0], ?_⟩
  case' mk.bool.str s =>
    refine ⟨.writeByte r (if truthy (.str s) then 1 else 0), rfl,
      updStore st.store r [if truthy (.str s) then 1 else 0], ?_⟩
  case' mk.int.int n =>
    refine ⟨.writeBlock r (pack_i n), rfl, updStore st.store r (pack_i n), ?_⟩
  case' mk.float.float bits =>
    refine ⟨.writeBlock r (pack_f bits), rfl, updStore st.store r (pack_f bits), ?_⟩
  case' mk.byte.byte b =>
    refine ⟨.writeByte r b, rfl, updStore st.store r [b], ?_⟩
  case mk.int.int =>
    simp only [write_register, write_int, write_i2c_block_data]
    rw [if_pos (And.intro h.1 h.2)]
  case mk.float.float => exact rfl
  case mk.byte.byte =>
    simp only [write_register, write_byte, write_byte_data]
    rw [if_pos h]
  all_goals
    simp only [write_register, write_bool, write_byte_data]
  all_goals
    rw [if_pos (by split <;> omega)]


/-- The accumulated bitmap stays a byte as long as every visited
register address is at most 0x0F (bit index at most 7). -/
theorem loop_bm_lt (data : FieldMap) :
    ∀ (regs : List (String × RegVal)) (bm : Nat),
      (∀ p ∈ regs, p.2.reg ≤ 15) → bm < 256 → loop_bm data regs bm < 256 := by
  intro regs
  induction regs with
  | nil => intro bm _ hbm; simpa [loop_bm] using hbm
  | cons p rest ih =>
    obtain ⟨key, val⟩ := p
    intro bm h hbm
    have hrest : ∀ p ∈ rest, p.2.reg ≤ 15 :=
      fun q hq => h q (List.mem_cons_of_mem _ hq)
    by_cases hlt : val.reg < BUS_REG_OPT_START
    · simpa [loop_bm, if_pos hlt] using ih bm hrest hbm
    · cases hk : flookup data key with
      | none => simpa [loop_bm, if_neg hlt, hk] using ih bm hrest hbm
      | some v =>
        have hreg : val.reg ≤ 15 := h (key, val) (List.mem_cons_self _ _)
        have hset : set_bit bm (val.reg - BUS_REG_OPT_START) < 256 := by
          have hi : val.reg - BUS_REG_OPT_START ≤ 7 := by
            simp only [BUS_REG_OPT_START, busReg_opt_bitmap] at *
            omega
          have h2 : (1 <<< (val.reg - BUS_REG_OPT_START)) < 2 ^ 8 := by
            rw [Nat.shiftLeft_eq]
            calc 1 * 2 ^ (val.reg - BUS_REG_OPT_START) ≤ 1 * 2 ^ 7 := by
                  gcongr
                  omega
              _ < 2 ^ 8 := by norm_num
          exact Nat.or_lt_two_pow (n := 8) hbm h2
        simpa [loop_bm, if_neg hlt, hk] using
          ih (set_bit bm (val.reg - BUS_REG_OPT_START)) hrest hset

/-- The optional write loop, when every present value is encodable for
its register, succeeds, returns the accumulated bitmap, and appends one
write transaction per present optional key, in catalog order. -/
theorem write_nfc_loop_good (data : FieldMap) :
    ∀ (regs : List (String × RegVal)) (bm : Nat) (st : BusState),
      (∀ p ∈ regs, BUS_REG_OPT_START ≤ p.2.reg → ∀ v,
        flookup data p.1 = some v → encodable p.2 v = true) →
      ∃ evs store2,
        write_nfc_loop data regs bm st =
          (.ok (loop_bm data regs bm), ⟨store2, st.trace ++ evs⟩) ∧
        evs.map evAddr = loop_addrs data regs := by
  intro regs
  induction regs with
  | nil =>
    intro bm st _
    exact ⟨[], st.store, by simp [write_nfc_loop, loop_bm], by simp [loop_addrs]⟩
  | cons p rest ih =>
    obtain ⟨key, val⟩ := p
    intro bm st h
    have hrest : ∀ p ∈ rest, BUS_REG_OPT_START ≤ p.2.reg → ∀ v,
        flookup data p.1 = some v → encodable p.2 v = true :=
      fun q hq => h q (List.mem_cons_of_mem _ hq)
    by_cases hlt : val.reg < BUS_REG_OPT_START
    · obtain ⟨evs, store2, heq, hmap⟩ := ih bm st hrest
      exact ⟨evs, store2,
        by simp only [write_nfc_loop, loop_bm, if_pos hlt]; exact heq,
        by simp only [loop_addrs, if_pos hlt]; exact hmap⟩
    · cases hk : flookup data key with
      | none =>
        obtain ⟨evs, store2, heq, hmap⟩ := ih bm st hrest
        refine ⟨evs, store2,
          by simp only [write_nfc_loop, loop_bm, if_neg hlt, hk]; exact heq, ?_⟩
        simp only [loop_addrs, if_neg hlt, hk, Option.isSome_none, Bool.false_eq_true,
          if_false]
        exact hmap
      | some v =>
        have henc := h (key, val) (List.mem_cons_self _ _)
          (Nat.le_of_not_lt hlt) v hk
        obtain ⟨e, he, store2, hw⟩ := write_register_good val v henc st
        obtain ⟨evs, store3, heq, hmap⟩ :=
          ih (set_bit bm (val.reg - BUS_REG_OPT_START)) ⟨store2, st.trace ++ [e]⟩ hrest
        refine ⟨e :: evs, store3, ?_, ?_⟩
        · simp only [write_nfc_loop, loop_bm, if_neg hlt, hk, hw, heq]
          simp [List.append_assoc]
        · simp only [List.map_cons, loop_addrs, if_neg hlt, hk, Option.isSome_some,
            if_true, he, hmap]

/-- `chain` on a success continues with the new state. -/
theorem chain_ok {α β : Type} (a : α) (st : BusState)
    (f : α → BusState → Except Err β × BusState) :
    chain (.ok a, st) f = f a st := rfl

/-- `chain` on a raised error propagates it. -/
theorem chain_error {α β : Type} (e : Err) (st : BusState)
    (f : α → BusState → Except Err β × BusState) :
    chain (α := α) (β := β) (.error e, st) f = (.error e, st) := rfl

/-- Dict access on a present key. -/
theorem onKey_some (v : Value) (st : BusState)
    (f : Value → Except Err Unit × BusState) : onKey (some v) st f = f v := rfl

/-- Dict access on a missing key raises KeyError. -/
theorem onKey_none (st : BusState) (f : Value → Except Err Unit × BusState) :
    onKey none st f = (.error .keyError, st) := rfl

/-- `asStr` on a str value. -/
theorem asStr_str (s : List Char) (st : BusState)
    (f : List Char → Except Err Unit × BusState) : asStr (.str s) st f = f s := rfl

/-- The tail of the write transaction: the optional loop's writes, then
the accumulated bitmap to opt_bitmap (0x07), then Commit to the
operation register (0x0F) — always the final bus write. -/
theorem write_nfc_tail_good (data : FieldMap)
    (hgood : ∀ p ∈ BUS_REGISTERS, BUS_REG_OPT_START ≤ p.2.reg → ∀ v,
      flookup data p.1 = some v → encodable p.2 v = true)
    (st : BusState) :
    ∃ evs store2,
      write_nfc_tail data st = (.ok (), ⟨store2,
        st.trace ++ evs ++
          [.writeByte 0x07 (loop_bm data BUS_REGISTERS 0), .writeByte 0x0F 0]⟩) ∧
      evs.map evAddr = loop_addrs data BUS_REGISTERS := by
  obtain ⟨evs, store2, heq, hmap⟩ := write_nfc_loop_good data BUS_REGISTERS 0 st hgood
  have hbm : loop_bm data BUS_REGISTERS 0 < 256 :=
    loop_bm_lt data BUS_REGISTERS 0 (by decide) (by decide)
  refine ⟨evs,
    updStore (updStore store2 0x07 [loop_bm data BUS_REGISTERS 0]) 0x0F [0], ?_, hmap⟩
  simp only [write_nfc_tail, heq, chain_ok, busReg_opt_bitmap, write_register,
    write_byte, write_byte_data]
  rw [if_pos hbm]
  simp only [chain_ok, write_operation, busReg_operation, BusOp.value, write_byte,
    write_byte_data]
  rw [if_pos (by omega)]
  simp [List.append_assoc]

/-- Python `str` slicing keeps the length at or below the cap. -/
theorem py_slice32_length_le (s : List Char) : (py_slice32 s).length ≤ 32 := by
  simp only [py_slice32]
  split
  · rw [List.length_take]; omega
  · omega

/-- `_write_str` always succeeds on a str value: the truncated length is
within int32 range, so the transaction is a length write followed by the
name-bytes write. -/
theorem write_str_ok (reg lreg : Nat) (s : List Char) (st : BusState) :
    write_str reg s lreg st =
      (.ok (), write_i2c_block_data
        (write_i2c_block_data st lreg (pack_i ((py_slice32 s).length : Int)))
        reg (utf8Encode (py_slice32 s))) := by
  have hle := py_slice32_length_le s
  have hw : write_int lreg ((py_slice32 s).length : Int) st =
      (.ok (), write_i2c_block_data st lreg (pack_i ((py_slice32 s).length : Int))) := by
    unfold write_int
    rw [if_pos (show (-2147483648 : Int) ≤ ((py_slice32 s).length : Int) ∧
        ((py_slice32 s).length : Int) < 2147483648 by constructor <;> omega)]
  unfold write_str
  rw [hw, chain_ok]

theorem busReg_filament_name_reg : (busReg "filament_name").reg = 0x04 := rfl

theorem busReg_filament_name_len_reg : (busReg "filament_name_len").reg = 0x03 := rfl

/-- A generic write to an INT register with an in-range int value is the
single block write of its packed bytes. -/
theorem write_register_int (r : Nat) (n : Int) (st : BusState)
    (h : -2147483648 ≤ n ∧ n < 2147483648) :
    write_register ⟨r, .int⟩ (.int n) st =
      (.ok (), write_i2c_block_data st r (pack_i n)) := by
  simp only [write_register, write_int]
  rw [if_pos h]

/-- Stepping through the mandatory prefix of `_write_nfc`: with the four
mandatory keys present and well-formed, the first five bus writes are
id (0x02), name length (0x03), name bytes (0x04), spool weight (0x05)
and total weight (0x06), after which the tail runs. -/
theorem write_nfc_steps (data : FieldMap) (vid vsp vtot : Int) (s : List Char)
    (st : BusState)
    (h1 : flookup data "id" = some (.int vid))
    (r1 : -2147483648 ≤ vid ∧ vid < 2147483648)
    (h2 : flookup data "name" = some (.str s))
    (h3 : flookup data "spool_weight" = some (.int vsp))
    (r3 : -2147483648 ≤ vsp ∧ vsp < 2147483648)
    (h4 : flookup data "total_weight" = some (.int vtot))
    (r4 : -2147483648 ≤ vtot ∧ vtot < 2147483648) :
    write_nfc data st = write_nfc_tail data
      (write_i2c_block_data (write_i2c_block_data (write_i2c_block_data
        (write_i2c_block_data (write_i2c_block_data st 0x02 (pack_i vid))
          0x03 (pack_i ((py_slice32 s).length : Int)))
        0x04 (utf8Encode (py_slice32 s))) 0x05 (pack_i vsp)) 0x06 (pack_i vtot)) := by
  unfold write_nfc
  rw [h1, onKey_some, busReg_filament_id, write_register_int _ _ _ r1, chain_ok,
    h2, onKey_some, asStr_str, busReg_filament_name_reg, busReg_filament_name_len_reg,
    write_str_ok, chain_ok, h3, onKey_some, busReg_spool_weight,
    write_register_int _ _ _ r3, chain_ok, h4, onKey_some, busReg_total_weight,
    write_register_int _ _ _ r4, chain_ok]


/-- When the mapping has no "operation" key, the write loop's visited
addresses are exactly the spec's optional registers present in the
mapping, in catalog order. -/
theorem loop_addrs_eq_spec (data : FieldMap)
    (hop : flookup data "operation" = none) :
    loop_addrs data BUS_REGISTERS = specOptAddrs data := by
  have e : specOptionalRegisters =
      [("extr_multiplier", ⟨0x08, .float⟩), ("pressure_advance", ⟨0x09, .float⟩),
       ("extr_temp", ⟨0x0A, .int⟩), ("bed_temp", ⟨0x0B, .int⟩),
       ("regular_fan", ⟨0x0C, .int⟩), ("bridge_fan", ⟨0x0D, .int⟩)] := rfl
  have hs : BUS_REG_OPT_START = 8 := rfl
  rcases h8 : flookup data "extr_multiplier" with _ | v8 <;>
  rcases h9 : flookup data "pressure_advance" with _ | v9 <;>
  rcases h10 : flookup data "extr_temp" with _ | v10 <;>
  rcases h11 : flookup data "bed_temp" with _ | v11 <;>
  rcases h12 : flookup data "regular_fan" with _ | v12 <;>
  rcases h13 : flookup data "bridge_fan" with _ | v13 <;>
    simp [loop_addrs, specOptAddrs, e, BUS_REGISTERS, hs, hop,
      h8, h9, h10, h11, h12, h13]


/-- Unpacking `optValsOk` into the form the loop lemma consumes. -/
theorem optValsOk_spec (data : FieldMap) (h : optValsOk data = true) :
    ∀ p ∈ BUS_REGISTERS, BUS_REG_OPT_START ≤ p.2.reg → ∀ v,
      flookup data p.1 = some v → encodable p.2 v = true := by
  intro p hp hge v hv
  have h2 := List.all_eq_true.mp h p hp
  rw [if_pos hge, hv] at h2
  exact h2

/-- The trace effect of one block write. -/
theorem trace_write_block (st : BusState) (r : Nat) (b : List Nat) :
    (write_i2c_block_data st r b).trace = st.trace ++ [.writeBlock r b] := rfl

/-- The last element of a trace that ends with the commit write. -/
theorem last_commit (l1 l2 : List BusEv) (a b : BusEv) :
    (l1 ++ (l2 ++ [a, b])).getLast? = some b := by
  rw [show l1 ++ (l2 ++ [a, b]) = ((l1 ++ l2) ++ [a]) ++ [b] by simp]
  exact List.getLast?_concat _

/-- Claim C3: for every field mapping (mandatory keys present and
well-formed, keys drawn from the record field names, optional values
acceptable), `_write_nfc` writes in the fixed order: filament_id (0x02),
the name string via `_write_str` (length 0x03 then bytes 0x04),
spool_weight (0x05), total_weight (0x06), then each present optional
field in catalog order, then the bitmap to opt_bitmap (0x07), and the
very last bus write is always the Commit byte to the operation register
(0x0F). -/
theorem c3_write_order (data : FieldMap) (vid vsp vtot : Int) (s : List Char)
    (h1 : flookup data "id" = some (.int vid))
    (r1 : -2147483648 ≤ vid ∧ vid < 2147483648)
    (h2 : flookup data "name" = some (.str s))
    (h3 : flookup data "spool_weight" = some (.int vsp))
    (r3 : -2147483648 ≤ vsp ∧ vsp < 2147483648)
    (h4 : flookup data "total_weight" = some (.int vtot))
    (r4 : -2147483648 ≤ vtot ∧ vtot < 2147483648)
    (hop : flookup data "operation" = none)
    (hopt : optValsOk data = true) :
    (write_nfc data initBus).1 = .ok () ∧
    (write_nfc data initBus).2.trace.map evAddr =
      [0x02, 0x03, 0x04, 0x05, 0x06] ++ specOptAddrs data ++ [0x07, 0x0F] ∧
    (write_nfc data initBus).2.trace.getLast? = some (.writeByte 0x0F 0) := by
  have hstep := write_nfc_steps data vid vsp vtot s initBus h1 r1 h2 h3 r3 h4 r4
  obtain ⟨evs, store2, heq, hmap⟩ :=
    write_nfc_tail_good data (optValsOk_spec data hopt)
      (write_i2c_block_data (write_i2c_block_data (write_i2c_block_data
        (write_i2c_block_data (write_i2c_block_data initBus 0x02 (pack_i vid))
          0x03 (pack_i ((py_slice32 s).length : Int)))
        0x04 (utf8Encode (py_slice32 s))) 0x05 (pack_i vsp)) 0x06 (pack_i vtot))
  rw [hstep, heq]
  have htr : (write_i2c_block_data (write_i2c_block_data (write_i2c_block_data
      (write_i2c_block_data (write_i2c_block_data initBus 0x02 (pack_i vid))
        0x03 (pack_i ((py_slice32 s).length : Int)))
      0x04 (utf8Encode (py_slice32 s))) 0x05 (pack_i vsp)) 0x06 (pack_i vtot)).trace =
      [.writeBlock 0x02 (pack_i vid),
       .writeBlock 0x03 (pack_i ((py_slice32 s).length : Int)),
       .writeBlock 0x04 (utf8Encode (py_slice32 s)),
       .writeBlock 0x05 (pack_i vsp), .writeBlock 0x06 (pack_i vtot)] := rfl
  refine ⟨rfl, ?_, ?_⟩
  · rw [htr]
    simp [evAddr, hmap, loop_addrs_eq_spec data hop]
  · rw [htr]
    dsimp only
    exact last_commit
      [BusEv.writeBlock 0x02 (pack_i vid),
       BusEv.writeBlock 0x03 (pack_i ((py_slice32 s).length : Int)),
       BusEv.writeBlock 0x04 (utf8Encode (py_slice32 s)),
       BusEv.writeBlock 0x05 (pack_i vsp), BusEv.writeBlock 0x06 (pack_i vtot)]
      evs (BusEv.writeByte 0x07 (loop_bm data BUS_REGISTERS 0))
      (BusEv.writeByte 0x0F 0)

/-- Witness for C3 at the record {id 7, name "PLA", spool 200, total
950, pressure_advance present}. -/
theorem c3_write_order_witness :
    flookup [("id", Value.int 7), ("name", Value.str ['P', 'L', 'A']),
      ("spool_weight", Value.int 200), ("total_weight", Value.int 950),
      ("pressure_advance", Value.float 0x3D3851EC)] "id" = some (.int 7) ∧
    ((write_nfc [("id", Value.int 7), ("name", Value.str ['P', 'L', 'A']),
        ("spool_weight", Value.int 200), ("total_weight", Value.int 950),
        ("pressure_advance", Value.float 0x3D3851EC)] initBus).1 = .ok () ∧
     (write_nfc [("id", Value.int 7), ("name", Value.str ['P', 'L', 'A']),
        ("spool_weight", Value.int 200), ("total_weight", Value.int 950),
        ("pressure_advance", Value.float 0x3D3851EC)] initBus).2.trace.map evAddr =
       [0x02, 0x03, 0x04, 0x05, 0x06] ++
         specOptAddrs [("id", Value.int 7), ("name", Value.str ['P', 'L', 'A']),
           ("spool_weight", Value.int 200), ("total_weight", Value.int 950),
           ("pressure_advance", Value.float 0x3D3851EC)] ++ [0x07, 0x0F] ∧
     (write_nfc [("id", Value.int 7), ("name", Value.str ['P', 'L', 'A']),
        ("spool_weight", Value.int 200), ("total_weight", Value.int 950),
        ("pressure_advance", Value.float 0x3D3851EC)] initBus).2.trace.getLast? =
       some (.writeByte 0x0F 0)) :=
  ⟨rfl, c3_write_order _ 7 200 950 ['P', 'L', 'A'] rfl (by decide) rfl rfl
    (by decide) rfl (by decide) rfl (by decide)⟩

/-- Claim C10: when the mapping lacks any mandatory key (id, name,
spool_weight, total_weight) — present mandatory values being well-formed
— `_write_nfc` raises an untyped KeyError at the dict access; the
register writes issued before the missing key is reached have already
gone out on the bus — the trace holds exactly the writes to the id
(0x02), then name-length (0x03) and name (0x04), then spool-weight
(0x05) registers, up to the first missing key — and no Commit write
(byte 0 to the operation register at 0x0F) is ever issued, so the
device never applies the partial write. -/
theorem c10_missing_mandatory_key (data : FieldMap)
    (hmiss : flookup data "id" = none ∨ flookup data "name" = none ∨
      flookup data "spool_weight" = none ∨ flookup data "total_weight" = none)
    (hid : ∀ v, flookup data "id" = some v →
      ∃ n, v = .int n ∧ -2147483648 ≤ n ∧ n < 2147483648)
    (hname : ∀ v, flookup data "name" = some v → ∃ s, v = .str s)
    (hsp : ∀ v, flookup data "spool_weight" = some v →
      ∃ n, v = .int n ∧ -2147483648 ≤ n ∧ n < 2147483648) :
    (write_nfc data initBus).1 = .error .keyError ∧
    BusEv.writeByte 0x0F 0 ∉ (write_nfc data initBus).2.trace ∧
    (write_nfc data initBus).2.trace.map evAddr =
      (if flookup data "id" = none then []
       else if flookup data "name" = none then [0x02]
       else if flookup data "spool_weight" = none then [0x02, 0x03, 0x04]
       else [0x02, 0x03, 0x04, 0x05]) := by
  cases hidk : flookup data "id" with
  | none =>
    unfold write_nfc
    rw [hidk, onKey_none]
    refine ⟨rfl, ?_, ?_⟩
    · simp [initBus]
    · simp [initBus, hidk]
  | some vid0 =>
    obtain ⟨n, rfl, hn⟩ := hid vid0 hidk
    cases hnk : flookup data "name" with
    | none =>
      unfold write_nfc
      rw [hidk, onKey_some, busReg_filament_id, write_register_int _ _ _ hn,
        chain_ok, hnk, onKey_none]
      refine ⟨rfl, ?_, ?_⟩
      · simp [write_i2c_block_data, initBus]
      · simp [write_i2c_block_data, initBus, evAddr, hidk, hnk]
    | some vn0 =>
      obtain ⟨s, rfl⟩ := hname vn0 hnk
      cases hsk : flookup data "spool_weight" with
      | none =>
        unfold write_nfc
        rw [hidk, onKey_some, busReg_filament_id, write_register_int _ _ _ hn,
          chain_ok, hnk, onKey_some, asStr_str, busReg_filament_name_reg,
          busReg_filament_name_len_reg, write_str_ok, chain_ok, hsk, onKey_none]
        refine ⟨rfl, ?_, ?_⟩
        · simp [write_i2c_block_data, initBus]
        · simp [write_i2c_block_data, initBus, evAddr, hidk, hnk, hsk]
      | some vs0 =>
        obtain ⟨m, rfl, hm⟩ := hsp vs0 hsk
        cases htk : flookup data "total_weight" with
        | none =>
          unfold write_nfc
          rw [hidk, onKey_some, busReg_filament_id, write_register_int _ _ _ hn,
            chain_ok, hnk, onKey_some, asStr_str, busReg_filament_name_reg,
            busReg_filament_name_len_reg, write_str_ok, chain_ok, hsk, onKey_some,
            busReg_spool_weight, write_register_int _ _ _ hm, chain_ok, htk,
            onKey_none]
          refine ⟨rfl, ?_, ?_⟩
          · simp [write_i2c_block_data, initBus]
          · simp [write_i2c_block_data, initBus, evAddr, hidk, hnk, hsk, htk]
        | some vt0 =>
          rcases hmiss with h | h | h | h
          · rw [h] at hidk; cases hidk
          · rw [h] at hnk; cases hnk
          · rw [h] at hsk; cases hsk
          · rw [h] at htk; cases htk

/-- Witness for C10: the mapping {id: 7} lacks the name key; the write
raises KeyError, the id write (register 0x02) has already reached the
bus — the trace is exactly that one write — and no Commit is issued. -/
theorem c10_missing_mandatory_key_witness :
    (flookup [("id", Value.int 7)] "name" = none) ∧
    ((write_nfc [("id", Value.int 7)] initBus).1 = .error .keyError ∧
     BusEv.writeByte 0x0F 0 ∉ (write_nfc [("id", Value.int 7)] initBus).2.trace ∧
     (write_nfc [("id", Value.int 7)] initBus).2.trace.map evAddr = [0x02]) :=
  ⟨rfl, c10_missing_mandatory_key [("id", Value.int 7)] (Or.inr (Or.inl rfl))
    (by intro v h; simp [flookup] at h; exact ⟨7, h.symm, by decide, by decide⟩)
    (by intro v h; simp [flookup] at h)
    (by intro v h; simp [flookup] at h)⟩
